import Mathlib

/-
Shallow embedding of the mongodb instrumentation module
(src/unnamed/part_000 of isikhi/apm-agent-nodejs).

The module installs one of two instrumentation strategies on the mongodb
driver: an event-driven correlator (`onStart` / `onEnd` over an
`activeSpans` Map keyed by `requestId`) for drivers exposing
`mongodb.instrument()`, or per-call interception (`wrapCollectionApi`)
for drivers exposing `MongoClient`.  Spans, the logger and the semver /
URL / destination collaborators are external to the source file; they are
embedded at their interface, as recorded in each doc comment.
-/

set_option autoImplicit false

namespace MongoInstr

/-- Minimal model of a JavaScript value as it occurs in the instrumented
event payloads: a string, a number, or `undefined` (also standing for any
other non-string value, which the source only ever probes via
`typeof x === 'string'` and truthiness checks). -/
inductive JsVal where
  | str (s : String)
  | num (n : Int)
  | undef
  deriving DecidableEq

/-- JavaScript truthiness for the values modelled by `JsVal`: the empty
string, `0` and `undefined` are falsy. -/
def jsTruthy : JsVal → Bool
  | JsVal.str s => s ≠ ""
  | JsVal.num n => n ≠ 0
  | JsVal.undef => false

/-- JavaScript `a || b`. -/
def jsOr (a b : JsVal) : JsVal := if jsTruthy a then a else b

/-- JavaScript property read `obj[key]` on an object modelled as an
association list; a missing key yields `undefined`. -/
def jsIndex : List (String × JsVal) → String → JsVal
  | [], _ => JsVal.undef
  | (k, v) :: rest, q => if k = q then v else jsIndex rest q

/-- Db context `{ type, instance }` passed to `span.setDbContext`.  The
field names are `dbType` / `dbInstance` because `instance` is a Lean
keyword. -/
structure DbCtx where
  dbType : String
  dbInstance : String
  deriving DecidableEq

/-- Destination context `{ host, port }` attached to a span. -/
structure Destination where
  host : String
  port : String
  deriving DecidableEq

/-- Modelled from the spec: `getDBDestination` is imported from
`../context`, which is not under `src/`.  Per the spec (sections 4.5 and
the glossary) a resolved destination is the structured `{host, port}`
pair built from the two parsed components. -/
def getDBDestination (host port : String) : Destination := ⟨host, port⟩

/-- The slice of the external span collaborator's state that the source
file reads or writes: identity fields passed to `createSpan`, the start
clock sample `_timer.start` (microseconds), the two mutable context
fields, and the terminal state (`endTimestamp` is the explicit absolute
timestamp passed to `span.end(t)`, `endCount` counts `span.end`
invocations so that single-closure invariants are expressible). -/
structure Span where
  name : String
  kind : String
  subtype : String
  action : String
  timerStart : Nat
  dbContext : Option DbCtx
  destContext : Option Destination
  endTimestamp : Option Nat
  endCount : Nat
  deriving DecidableEq

/-- The span's start timestamp in the unit used for explicit end
timestamps, mirroring the source expression `span._timer.start / 1000`. -/
def Span.startTime (sp : Span) : Nat := sp.timerStart / 1000

/-- Model of `span.end(t)` with an explicit absolute end timestamp. -/
def Span.endAt (sp : Span) (t : Nat) : Span :=
  { sp with endTimestamp := some t, endCount := sp.endCount + 1 }

/-- Outcome field of a terminal command-monitoring event. -/
inductive Outcome where
  | success
  | failure
  deriving DecidableEq

/-- `CommandStartedEvent` as read by `onStart`: `requestId`,
`databaseName`, `commandName`, the command payload object, and the
`address` / `connectionId` fields used for destination resolution. -/
structure StartEvent where
  requestId : Nat
  databaseName : String
  commandName : String
  command : List (String × JsVal)
  address : JsVal
  connectionId : JsVal
  deriving DecidableEq

/-- Terminal event (`CommandSucceededEvent` / `CommandFailedEvent`) as
read by `onEnd`: only `requestId` and `duration` are read; the outcome is
carried to state outcome-independence. -/
structure EndEvent where
  requestId : Nat
  duration : Nat
  outcome : Outcome
  deriving DecidableEq

/-- Splits a character list at its last colon: `some (before, after)`
where `after` contains no colon, or `none` when no colon occurs. -/
def splitLastColon : List Char → Option (List Char × List Char)
  | [] => none
  | c :: rest =>
    match splitLastColon rest with
    | some (pre, post) => some (c :: pre, post)
    | none => if c = ':' then some ([], rest) else none

/-- Embedding of `HOSTNAME_PORT_RE = /^(.+):(\d+)$/` applied via
`exec`: the greedy `(.+)` captures everything up to the last colon whose
suffix is one or more digits reaching the end of the string; `.` does
not match line terminators.  Returns the two capture groups on a match. -/
def parseHostPort (s : String) : Option (String × String) :=
  match splitLastColon s.data with
  | none => none
  | some (pre, post) =>
    if pre ≠ [] ∧ post ≠ [] ∧ post.all Char.isDigit ∧
        pre.all (fun c => c ≠ '\n' ∧ c ≠ '\r') then
      some (String.mk pre, String.mk post)
    else
      none

/-- `collectionFor(event)`: the value of `event.command[event.commandName]`
when it is a string, else the sentinel `"$cmd"`. -/
def collectionFor (ev : StartEvent) : String :=
  match jsIndex ev.command ev.commandName with
  | JsVal.str s => s
  | _ => "$cmd"

/-- The span name composed by `onStart`:
`[databaseName, collectionFor(event), commandName].join('.')`. -/
def spanNameFor (ev : StartEvent) : String :=
  ev.databaseName ++ "." ++ collectionFor ev ++ "." ++ ev.commandName

/-- The `activeSpans` Map of the event correlator, as an association
list from `requestId` to the stored span (JS Map keys are unique;
entries are only created through `mapSet`). -/
abbrev ActiveSpans := List (Nat × Span)

/-- JS `Map.prototype.get` / `Map.prototype.has` combined. -/
def mapLookup : ActiveSpans → Nat → Option Span
  | [], _ => none
  | (k, v) :: rest, q => if k = q then some v else mapLookup rest q

/-- JS `Map.prototype.set`: replaces the value at an existing key in
place, otherwise appends the new entry. -/
def mapSet : ActiveSpans → Nat → Span → ActiveSpans
  | [], q, v => [(q, v)]
  | (k, w) :: rest, q, v =>
    if k = q then (q, v) :: rest else (k, w) :: mapSet rest q v

/-- JS `Map.prototype.delete`: removes the entry at the key, if any. -/
def mapDelete : ActiveSpans → Nat → ActiveSpans
  | [], _ => []
  | (k, w) :: rest, q => if k = q then rest else (k, w) :: mapDelete rest q

/-- Destination resolution in `onStart`: `event.address || event.connectionId`,
kept only when truthy, of string type, and matching `HOSTNAME_PORT_RE`;
otherwise the span proceeds with no destination context (the source logs
at trace level there). -/
def startDestination (ev : StartEvent) : Option Destination :=
  let address := jsOr ev.address ev.connectionId
  if jsTruthy address then
    match address with
    | JsVal.str s =>
      match parseHostPort s with
      | some (h, p) => some (getDBDestination h p)
      | none => none
    | _ => none
  else
    none

/-- The span built by `onStart` for a granted start event: name from
`spanNameFor`, kind `db` / `mongodb` / `commandName`, start clock sample
`timerStart` stamped by the external collaborator at creation, db context
`{ type: 'mongodb', instance: databaseName }`, destination context when
resolvable. -/
def startSpan (timerStart : Nat) (ev : StartEvent) : Span :=
  { name := spanNameFor ev
    kind := "db"
    subtype := "mongodb"
    action := ev.commandName
    timerStart := timerStart
    dbContext := some { dbType := "mongodb", dbInstance := ev.databaseName }
    destContext := startDestination ev
    endTimestamp := none
    endCount := 0 }

/-- `onStart(event)`: compose the span name, request a span through
`ins.createSpan` (modelled by the `grant` decision of the external
collaborator), and if granted store the enriched span in `activeSpans`
keyed by `requestId`.  When refused, nothing happens. -/
def onStart (grant : Bool) (timerStart : Nat) (ev : StartEvent)
    (st : ActiveSpans) : ActiveSpans :=
  if grant then
    mapSet st ev.requestId (startSpan timerStart ev)
  else
    st

/-- `onEnd(event)`: when `requestId` is absent the handler returns with
no effect; otherwise the entry is deleted and the span ended at
`span._timer.start / 1000 + event.duration`.  The ended span is returned
alongside the new table so its terminal state can be observed. -/
def onEnd (ev : EndEvent) (st : ActiveSpans) : ActiveSpans × Option Span :=
  match mapLookup st ev.requestId with
  | none => (st, none)
  | some span =>
    (mapDelete st ev.requestId,
     some (span.endAt (span.timerStart / 1000 + ev.duration)))

/-- The two handler functions registered on the instrumentation
listener. -/
inductive HandlerTag where
  | startHandler
  | endHandler
  deriving DecidableEq

/-- The listener registrations performed by the event strategy:
`listener.on('started', onStart)`, `listener.on('succeeded', onEnd)`,
`listener.on('failed', onEnd)`. -/
def eventListenerTable : List (String × HandlerTag) :=
  [("started", HandlerTag.startHandler),
   ("succeeded", HandlerTag.endHandler),
   ("failed", HandlerTag.endHandler)]

/-- The handler dispatched for a given event name. -/
def lookupHandler : String → Option HandlerTag :=
  fun nm => (eventListenerTable.find? (fun p => p.1 = nm)).map (·.2)

/-- The slice of a collection handle's internal state (`this.s`) read by
`wrapCollectionApi`: `namespace.db`, `namespace.collection`, and the
owning client's connection URL reached through
`_get(db, 's.client.s.url')` (`JsVal.undef` when the path is missing). -/
structure CollHandle where
  nsDb : String
  nsCollection : String
  clientUrl : JsVal
  deriving DecidableEq

/-- Modelled from the spec: `new URL(address)` with `url.hostname` /
`url.port` uses Node's WHATWG URL class, which is not repository code.
Per the spec the connection URL is decomposed "as a standard URL,
extracting hostname/port"; a string without a `scheme://` part fails to
parse (the source catches the failure), the authority runs to the first
slash, a trailing `:digits` is the port and otherwise the port is the
empty string, as `url.port` is for a URL without one. -/
def parseUrlHostPort (s : String) : Option (String × String) :=
  match s.splitOn "://" with
  | [_, rest] =>
    let authority := (rest.splitOn "/").headD ""
    if authority = "" then none
    else
      match parseHostPort authority with
      | some (h, p) => some (h, p)
      | none => some (authority, "")
  | _ => none

/-- Destination resolution in `wrapCollectionApi`: when the client URL is
truthy, parse it as a URL and build the destination from hostname and
port; a parse failure (or a missing URL) leaves the destination unset
(the source logs at trace level there). -/
def collDestination (coll : CollHandle) : Option Destination :=
  if jsTruthy coll.clientUrl then
    match coll.clientUrl with
    | JsVal.str s =>
      match parseUrlHostPort s with
      | some (h, p) => some (getDBDestination h p)
      | none => none
    | _ => none
  else
    none

/-- The span created by `wrapCollectionApi` when `createSpan` grants one:
name `namespace.db + '.' + namespace.collection + '.' + apiName`, kind
`db` / `mongodb` / `apiName`, db context set, destination from the client
URL. -/
def collSpan (coll : CollHandle) (apiName : String) (timerStart : Nat) : Span :=
  { name := coll.nsDb ++ "." ++ coll.nsCollection ++ "." ++ apiName
    kind := "db"
    subtype := "mongodb"
    action := apiName
    timerStart := timerStart
    dbContext := some { dbType := "mongodb", dbInstance := coll.nsDb }
    destContext := collDestination coll
    endTimestamp := none
    endCount := 0 }

/-- How one invocation of a wrapped collection operation unfolds, from
the wrapper's point of view.  `callbackStyle outs` is a call whose last
argument is a function; the underlying operation later invokes that
(possibly substituted) callback once per element of `outs`, each carrying
an error-or-result outcome.  `promiseStyle out` is a call with no
trailing function argument whose awaited underlying operation resolves
or throws with `out`. -/
inductive Invocation (α ε : Type) where
  | callbackStyle (outs : List (Except ε α))
  | promiseStyle (out : Except ε α)

/-- Observable steps of one wrapped invocation, in order: the underlying
operation being entered, a `span.end()` call, the original caller
callback being invoked with an outcome, a value returned to the caller,
an error thrown to the caller. -/
inductive TraceEv (α ε : Type) where
  | origCall
  | spanEndEv
  | origCb (out : Except ε α)
  | ret (a : α)
  | thrown (e : ε)

/-- The trace steps surfacing a promise outcome to the caller. -/
def outcomeEvents {α ε : Type} : Except ε α → List (TraceEv α ε)
  | Except.ok a => [TraceEv.ret a]
  | Except.error e => [TraceEv.thrown e]

/-- Number of `span.end()` calls in a trace. -/
def countSpanEnds {α ε : Type} : List (TraceEv α ε) → Nat
  | [] => 0
  | TraceEv.spanEndEv :: rest => countSpanEnds rest + 1
  | _ :: rest => countSpanEnds rest

/-- Result of one invocation of the wrapper produced by
`wrapCollectionApi`: the span it created (if any), the ordered trace of
observable steps, and which closing path ran (`viaCallback` when the
callback-substitution branch was taken, `viaPromise` when the awaited
try/catch branch was). -/
structure RunResult (α ε : Type) where
  span : Option Span
  trace : List (TraceEv α ε)
  viaCallback : Bool
  viaPromise : Bool

/-- One invocation of the function returned by `wrapCollectionApi`.
When `createSpan` refuses (`grant = false`) the original operation is
applied to the unmodified arguments and its result returned directly.
When granted: for a trailing function argument, the last argument is
replaced by a wrapper that calls `span.end()` and then delegates to the
original callback with the original arguments; otherwise the original
operation is awaited in a try/catch that calls `span.end()` and then
returns the result, or calls `span.end()` and re-throws the caught
error. -/
def wrapCollectionApi {α ε : Type} (grant : Bool) (coll : CollHandle)
    (apiName : String) (timerStart : Nat) (inv : Invocation α ε) :
    RunResult α ε :=
  if grant then
    let span := collSpan coll apiName timerStart
    match inv with
    | Invocation.callbackStyle outs =>
      { span := some span
        trace := TraceEv.origCall ::
          outs.flatMap (fun o => [TraceEv.spanEndEv, TraceEv.origCb o])
        viaCallback := true
        viaPromise := false }
    | Invocation.promiseStyle out =>
      { span := some span
        trace := TraceEv.origCall :: TraceEv.spanEndEv :: outcomeEvents out
        viaCallback := false
        viaPromise := true }
  else
    match inv with
    | Invocation.callbackStyle outs =>
      { span := none
        trace := TraceEv.origCall :: outs.map TraceEv.origCb
        viaCallback := false
        viaPromise := false }
    | Invocation.promiseStyle out =>
      { span := none
        trace := TraceEv.origCall :: outcomeEvents out
        viaCallback := false
        viaPromise := false }

/-- A parsed `major.minor.patch` version. -/
structure SemVer where
  major : Nat
  minor : Nat
  patch : Nat
  deriving DecidableEq

/-- Splits a character list on the dot separator. -/
def splitOnDot : List Char → List (List Char)
  | [] => [[]]
  | c :: rest =>
    let r := splitOnDot rest
    if c = '.' then [] :: r
    else
      match r with
      | [] => [[c]]
      | h :: t => (c :: h) :: t

/-- Reads a non-empty all-digit character list as a decimal number. -/
def digitsToNatAux : List Char → Nat → Option Nat
  | [], acc => some acc
  | c :: rest, acc =>
    if c.isDigit then digitsToNatAux rest (acc * 10 + (c.toNat - 48))
    else none

/-- Reads a non-empty all-digit character list as a decimal number,
failing on the empty list or any non-digit. -/
def digitsToNat : List Char → Option Nat
  | [] => none
  | c :: rest => digitsToNatAux (c :: rest) 0

/-- Parses a dotted three-component version string. -/
def parseSemVer (s : String) : Option SemVer :=
  match (splitOnDot s.data).map digitsToNat with
  | [some a, some b, some c] => some { major := a, minor := b, patch := c }
  | _ => none

/-- Modelled from the spec: `semver.satisfies(version, '>=3.3 <6.0')`
comes from the external semver collaborator.  Per the spec the supported
range is lower-inclusive, upper-exclusive: at least 3.3.0 and strictly
below 6.0.0. -/
def satisfiesSupportedRange (v : SemVer) : Bool :=
  (v.major > 3 || (v.major = 3 && v.minor ≥ 3)) && v.major < 6

/-- The shape of the driver module surface probed by the entry point:
whether `mongodb.instrument` exists and whether `mongodb.MongoClient`
exists. -/
structure ModuleShape where
  hasInstrument : Bool
  hasMongoClient : Bool
  deriving DecidableEq

/-- Diagnostics the entry point can emit. -/
inductive LogEvent where
  | debugVersionNotInstrumented
  | warnCouldNotInstrument
  deriving DecidableEq

/-- Observable effects of running the installation entry point: whether
the very driver module passed in is what is returned (every path of the
source ends in `return mongodb`), the event names listeners were
registered on, the method names wrapped in place, and the diagnostics
emitted. -/
structure InstallEffects where
  returnedOriginalModule : Bool
  registeredListeners : List String
  wrappedMethods : List String
  logs : List LogEvent
  deriving DecidableEq

/-- The installation entry point `module.exports = (mongodb, agent,
{ version, enabled }) => ...`: return immediately when disabled; emit a
debug diagnostic and return unmodified when the version does not satisfy
`>=3.3 <6.0`; otherwise install the event strategy when
`mongodb.instrument` exists, else wrap `MongoClient.prototype.db` when
`mongodb.MongoClient` exists, else warn. -/
def installMongodb (shape : ModuleShape) (v : SemVer) (enabled : Bool) :
    InstallEffects :=
  if !enabled then
    { returnedOriginalModule := true
      registeredListeners := []
      wrappedMethods := []
      logs := [] }
  else if !satisfiesSupportedRange v then
    { returnedOriginalModule := true
      registeredListeners := []
      wrappedMethods := []
      logs := [LogEvent.debugVersionNotInstrumented] }
  else if shape.hasInstrument then
    { returnedOriginalModule := true
      registeredListeners := ["started", "succeeded", "failed"]
      wrappedMethods := []
      logs := [] }
  else if shape.hasMongoClient then
    { returnedOriginalModule := true
      registeredListeners := []
      wrappedMethods := ["db"]
      logs := [] }
  else
    { returnedOriginalModule := true
      registeredListeners := []
      wrappedMethods := []
      logs := [LogEvent.warnCouldNotInstrument] }

/-- The standard Node callback contract assumed of the underlying driver
operation: a callback-style invocation invokes its completion callback
exactly once; promise-style invocations are unconstrained. -/
def callbackInvokedOnce {α ε : Type} : Invocation α ε → Prop
  | Invocation.callbackStyle outs => outs.length = 1
  | Invocation.promiseStyle _ => True

/-- Example `CommandStartedEvent`: an `insert` into collection `cats` of
database `test`, reported from address `127.0.0.1:27017`. -/
def insertCatsEv : StartEvent :=
  { requestId := 1
    databaseName := "test"
    commandName := "insert"
    command := [("insert", JsVal.str "cats"), ("documents", JsVal.undef)]
    address := JsVal.str "127.0.0.1:27017"
    connectionId := JsVal.num 1 }

/-- Example administrative `CommandStartedEvent`: `ping` on database
`test`, whose payload value under the command name is the number 1. -/
def pingEv : StartEvent :=
  { requestId := 2
    databaseName := "test"
    commandName := "ping"
    command := [("ping", JsVal.num 1)]
    address := JsVal.undef
    connectionId := JsVal.num 1 }

/-- Example `CommandStartedEvent` whose address token does not match the
anchored host:port pattern. -/
def badAddrEv : StartEvent :=
  { requestId := 3
    databaseName := "test"
    commandName := "insert"
    command := [("insert", JsVal.str "cats")]
    address := JsVal.str "not-an-address"
    connectionId := JsVal.num 7 }

/-- Example collection handle for the interception strategy. -/
def catsColl : CollHandle :=
  { nsDb := "test"
    nsCollection := "cats"
    clientUrl := JsVal.str "mongodb://localhost:27017/test" }

/-- A span parked in the table under another request id, for exercising
unmatched end notifications against a non-empty table. -/
def parkedSpan : Span :=
  { name := "test.cats.insert"
    kind := "db"
    subtype := "mongodb"
    action := "insert"
    timerStart := 4000
    dbContext := some { dbType := "mongodb", dbInstance := "test" }
    destContext := none
    endTimestamp := none
    endCount := 0 }

theorem mapLookup_mapSet_self (m : ActiveSpans) (q : Nat) (v : Span) :
    mapLookup (mapSet m q v) q = some v := by
  induction m with
  | nil => simp [mapSet, mapLookup]
  | cons p rest ih =>
    obtain ⟨k, w⟩ := p
    by_cases h : k = q
    · simp [mapSet, h, mapLookup]
    · simp [mapSet, h, mapLookup, ih]

theorem mapDelete_mapSet_of_absent (m : ActiveSpans) (q : Nat) (v : Span)
    (h : mapLookup m q = none) : mapDelete (mapSet m q v) q = m := by
  induction m with
  | nil => simp [mapSet, mapDelete]
  | cons p rest ih =>
    obtain ⟨k, w⟩ := p
    by_cases hk : k = q
    · simp [mapLookup, hk] at h
    · simp only [mapLookup, if_neg hk] at h
      simp [mapSet, mapDelete, hk, ih h]

theorem onEnd_absent (ev : EndEvent) (st : ActiveSpans)
    (h : mapLookup st ev.requestId = none) : onEnd ev st = (st, none) := by
  simp only [onEnd, h]

/-- C1: a granted StartNotification for request id R followed by exactly
one EndNotification for R yields exactly one ended span, whose end
timestamp is the span's start timestamp plus the notification's
duration; afterwards the table holds no entry for R (indeed it is back
to the pre-start table), and a repeated EndNotification for R is a
no-op. -/
theorem claim1_matched_end_closes_span (ev : StartEvent) (endEv : EndEvent)
    (ts : Nat) (st0 : ActiveSpans)
    (hid : endEv.requestId = ev.requestId)
    (h0 : mapLookup st0 ev.requestId = none) :
    ∃ sp : Span,
      (onEnd endEv (onStart true ts ev st0)).2 = some sp ∧
      sp.endTimestamp = some (sp.startTime + endEv.duration) ∧
      sp.endCount = 1 ∧
      (onEnd endEv (onStart true ts ev st0)).1 = st0 ∧
      mapLookup (onEnd endEv (onStart true ts ev st0)).1 ev.requestId = none ∧
      onEnd endEv (onEnd endEv (onStart true ts ev st0)).1 =
        ((onEnd endEv (onStart true ts ev st0)).1, none) := by
  have h1 : onStart true ts ev st0 = mapSet st0 ev.requestId (startSpan ts ev) := rfl
  have hlk : mapLookup (mapSet st0 ev.requestId (startSpan ts ev)) ev.requestId
      = some (startSpan ts ev) := mapLookup_mapSet_self st0 ev.requestId (startSpan ts ev)
  have h2 : onEnd endEv (onStart true ts ev st0)
      = (st0, some ((startSpan ts ev).endAt
          ((startSpan ts ev).timerStart / 1000 + endEv.duration))) := by
    rw [h1]
    simp only [onEnd, hid, hlk]
    rw [mapDelete_mapSet_of_absent st0 ev.requestId (startSpan ts ev) h0]
  refine ⟨(startSpan ts ev).endAt ((startSpan ts ev).timerStart / 1000 + endEv.duration),
    ?_, ?_, ?_, ?_, ?_, ?_⟩
  · rw [h2]
  · rfl
  · rfl
  · rw [h2]
  · rw [h2]; exact h0
  · rw [h2]
    exact onEnd_absent endEv st0 (hid ▸ h0)

/-- C1 witness: concrete run of the matched start/end pair. -/
theorem claim1_witness :
    ∃ sp : Span,
      (onEnd { requestId := 1, duration := 5, outcome := Outcome.success }
        (onStart true 2000 insertCatsEv [])).2 = some sp ∧
      sp.endTimestamp = some (sp.startTime + 5) ∧
      sp.endCount = 1 ∧
      (onEnd { requestId := 1, duration := 5, outcome := Outcome.success }
        (onStart true 2000 insertCatsEv [])).1 = [] ∧
      mapLookup (onEnd { requestId := 1, duration := 5, outcome := Outcome.success }
        (onStart true 2000 insertCatsEv [])).1 insertCatsEv.requestId = none ∧
      onEnd { requestId := 1, duration := 5, outcome := Outcome.success }
        (onEnd { requestId := 1, duration := 5, outcome := Outcome.success }
          (onStart true 2000 insertCatsEv [])).1 =
        ((onEnd { requestId := 1, duration := 5, outcome := Outcome.success }
          (onStart true 2000 insertCatsEv [])).1, none) :=
  claim1_matched_end_closes_span insertCatsEv
    { requestId := 1, duration := 5, outcome := Outcome.success } 2000 [] rfl rfl

/-- C4: an EndNotification whose request id has no entry in the table is
a no-op: the table (hence its size) is unchanged, no span is ended, and
the handler returns normally. -/
theorem claim4_unmatched_end_noop (ev : EndEvent) (st : ActiveSpans)
    (h : mapLookup st ev.requestId = none) :
    onEnd ev st = (st, none) ∧ (onEnd ev st).1.length = st.length := by
  have he := onEnd_absent ev st h
  exact ⟨he, by rw [he]⟩

/-- C4 witness: an end for request id 99 against a table holding only
request id 1. -/
theorem claim4_witness :
    onEnd { requestId := 99, duration := 3, outcome := Outcome.failure }
        [(1, parkedSpan)] = ([(1, parkedSpan)], none) ∧
      (onEnd { requestId := 99, duration := 3, outcome := Outcome.failure }
        [(1, parkedSpan)]).1.length = [(1, parkedSpan)].length :=
  claim4_unmatched_end_noop
    { requestId := 99, duration := 3, outcome := Outcome.failure }
    [(1, parkedSpan)] rfl

/-- C2: whenever a span is granted for a wrapped collection operation,
exactly one of the callback-close path and the promise-close path
executes, and `span.end()` runs exactly once on that span — given the
standard contract that a callback-style underlying operation invokes its
completion callback exactly once. -/
theorem claim2_single_close_path {α ε : Type} (coll : CollHandle)
    (apiName : String) (ts : Nat) (inv : Invocation α ε)
    (h : callbackInvokedOnce inv) :
    ((wrapCollectionApi true coll apiName ts inv).viaCallback
        != (wrapCollectionApi true coll apiName ts inv).viaPromise) = true ∧
      countSpanEnds (wrapCollectionApi true coll apiName ts inv).trace = 1 := by
  cases inv with
  | callbackStyle outs =>
    obtain ⟨o, rfl⟩ := List.length_eq_one.mp h
    exact ⟨rfl, rfl⟩
  | promiseStyle out =>
    cases out with
    | ok a => exact ⟨rfl, rfl⟩
    | error e => exact ⟨rfl, rfl⟩

/-- C2 witness: a callback-style `insertOne` whose callback is invoked
once with a success outcome. -/
theorem claim2_witness :
    callbackInvokedOnce
        (Invocation.callbackStyle (α := Nat) (ε := String) [Except.ok 7]) ∧
      ((wrapCollectionApi true catsColl "insertOne" 0
            (Invocation.callbackStyle (α := Nat) (ε := String)
              [Except.ok 7])).viaCallback
          != (wrapCollectionApi true catsColl "insertOne" 0
            (Invocation.callbackStyle (α := Nat) (ε := String)
              [Except.ok 7])).viaPromise) = true ∧
      countSpanEnds (wrapCollectionApi true catsColl "insertOne" 0
        (Invocation.callbackStyle (α := Nat) (ε := String)
          [Except.ok 7])).trace = 1 :=
  ⟨rfl, claim2_single_close_path catsColl "insertOne" 0
    (Invocation.callbackStyle [Except.ok 7]) rfl⟩

/-- C3: a promise-style invocation whose underlying operation throws
produces exactly the trace "enter the operation, end the span, throw";
the span is ended exactly once before the error surfaces, and the error
thrown to the caller is the very error the operation threw. -/
theorem claim3_promise_error_rethrown {α ε : Type} (coll : CollHandle)
    (apiName : String) (ts : Nat) (e : ε) :
    (wrapCollectionApi (α := α) true coll apiName ts
        (Invocation.promiseStyle (Except.error e))).trace =
      [TraceEv.origCall, TraceEv.spanEndEv, TraceEv.thrown e] ∧
      countSpanEnds (wrapCollectionApi (α := α) true coll apiName ts
        (Invocation.promiseStyle (Except.error e))).trace = 1 :=
  ⟨rfl, rfl⟩

/-- C3 witness: a concrete failing promise-style `findOne`. -/
theorem claim3_witness :
    (wrapCollectionApi (α := Nat) true catsColl "findOne" 0
        (Invocation.promiseStyle (Except.error "boom"))).trace =
      [TraceEv.origCall, TraceEv.spanEndEv, TraceEv.thrown "boom"] ∧
      countSpanEnds (wrapCollectionApi (α := Nat) true catsColl "findOne" 0
        (Invocation.promiseStyle (Except.error "boom"))).trace = 1 :=
  claim3_promise_error_rethrown catsColl "findOne" 0 "boom"

/-- C5: when span creation is refused, the event-strategy start handler
leaves the table untouched, and the interception-strategy wrapper
creates no span, never calls `span.end()`, and hands the unmodified
underlying operation's behaviour straight to the caller: a promise-style
call surfaces exactly the underlying outcome, and a callback-style call
delivers exactly the underlying callback invocations to the original
callback. -/
theorem claim5_refused_span_passthrough :
    (∀ (ts : Nat) (ev : StartEvent) (st : ActiveSpans),
        onStart false ts ev st = st) ∧
      (∀ (α ε : Type) (coll : CollHandle) (apiName : String) (ts : Nat)
          (inv : Invocation α ε),
        (wrapCollectionApi false coll apiName ts inv).span = none ∧
          countSpanEnds (wrapCollectionApi false coll apiName ts inv).trace = 0 ∧
          (wrapCollectionApi false coll apiName ts inv).viaCallback = false ∧
          (wrapCollectionApi false coll apiName ts inv).viaPromise = false ∧
          (∀ out : Except ε α, inv = Invocation.promiseStyle out →
            (wrapCollectionApi false coll apiName ts inv).trace =
              TraceEv.origCall :: outcomeEvents out) ∧
          (∀ outs : List (Except ε α), inv = Invocation.callbackStyle outs →
            (wrapCollectionApi false coll apiName ts inv).trace =
              TraceEv.origCall :: outs.map TraceEv.origCb)) := by
  refine ⟨fun ts ev st => rfl, fun α ε coll apiName ts inv => ?_⟩
  cases inv with
  | callbackStyle outs =>
    refine ⟨rfl, ?_, rfl, rfl, ?_, ?_⟩
    · show countSpanEnds (TraceEv.origCall :: outs.map TraceEv.origCb) = 0
      induction outs with
      | nil => rfl
      | cons o rest ih =>
        simpa [countSpanEnds] using ih
    · intro out hout
      cases hout
    · intro outs2 houts
      cases houts
      rfl
  | promiseStyle out =>
    cases out with
    | ok a =>
      exact ⟨rfl, rfl, rfl, rfl, fun o ho => by cases ho; rfl, fun os ho => by cases ho⟩
    | error e =>
      exact ⟨rfl, rfl, rfl, rfl, fun o ho => by cases ho; rfl, fun os ho => by cases ho⟩

/-- C5 witness: refused span on a concrete start event and on a concrete
promise-style call whose result passes through unaltered. -/
theorem claim5_witness :
    onStart false 5 insertCatsEv [] = [] ∧
      (wrapCollectionApi false catsColl "findOne" 0
          (Invocation.promiseStyle (α := Nat) (ε := String)
            (Except.ok 7))).trace =
        TraceEv.origCall :: outcomeEvents (Except.ok 7) :=
  ⟨claim5_refused_span_passthrough.1 5 insertCatsEv [],
    (claim5_refused_span_passthrough.2 Nat String catsColl "findOne" 0
        (Invocation.promiseStyle (Except.ok 7))).2.2.2.2.1
      (Except.ok 7) rfl⟩

/-- C6: the span name composed for a start event is
`databaseName.collectionLabel.commandName`, where the label is the
payload value under the command name when that value is a string and
`$cmd` otherwise; in particular `{insert: 'cats'}` with command `insert`
on database `test` names the span `test.cats.insert`, and `{ping: 1}`
with command `ping` names it `test.$cmd.ping`. -/
theorem claim6_span_name_composition :
    (∀ (ev : StartEvent) (s : String),
        jsIndex ev.command ev.commandName = JsVal.str s →
        spanNameFor ev = ev.databaseName ++ "." ++ s ++ "." ++ ev.commandName) ∧
      (∀ ev : StartEvent,
        (∀ s : String, jsIndex ev.command ev.commandName ≠ JsVal.str s) →
        spanNameFor ev =
          ev.databaseName ++ "." ++ "$cmd" ++ "." ++ ev.commandName) ∧
      spanNameFor insertCatsEv = "test.cats.insert" ∧
      spanNameFor pingEv = "test.$cmd.ping" := by
  refine ⟨?_, ?_, by decide, by decide⟩
  · intro ev s hs
    unfold spanNameFor collectionFor
    rw [hs]
  · intro ev hs
    unfold spanNameFor collectionFor
    cases hv : jsIndex ev.command ev.commandName with
    | str s => exact absurd hv (hs s)
    | num n => rfl
    | undef => rfl

/-- C6 witness: the two example payloads evaluated concretely. -/
theorem claim6_witness :
    jsIndex insertCatsEv.command insertCatsEv.commandName = JsVal.str "cats" ∧
      spanNameFor insertCatsEv =
        insertCatsEv.databaseName ++ "." ++ "cats" ++ "."
          ++ insertCatsEv.commandName :=
  ⟨rfl, claim6_span_name_composition.1 insertCatsEv "cats" rfl⟩

/-- C7: the destination-token parser resolves `127.0.0.1:27017` to host
`127.0.0.1` and port `27017`, leaves `not-an-address` unresolved (it
does not match the anchored pattern, and no error is raised since the
parser is total), and a granted start event carrying the unresolvable
token still stores its span — with no destination context. -/
theorem claim7_destination_token :
    parseHostPort "127.0.0.1:27017" = some ("127.0.0.1", "27017") ∧
      parseHostPort "not-an-address" = none ∧
      startDestination insertCatsEv =
        some { host := "127.0.0.1", port := "27017" } ∧
      startDestination badAddrEv = none ∧
      (mapLookup (onStart true 1000 badAddrEv []) badAddrEv.requestId).map
        Span.destContext = some none := by
  refine ⟨by decide, by decide, by decide, by decide, ?_⟩
  rfl

/-- C9: both terminal event names dispatch to the same end handler, and
the end handler's effect on the table and on the ended span is
independent of the outcome field. -/
theorem claim9_outcome_independent :
    lookupHandler "succeeded" = some HandlerTag.endHandler ∧
      lookupHandler "failed" = some HandlerTag.endHandler ∧
      ∀ (rid dur : Nat) (st : ActiveSpans),
        onEnd { requestId := rid, duration := dur, outcome := Outcome.success } st =
          onEnd { requestId := rid, duration := dur, outcome := Outcome.failure } st := by
  refine ⟨by decide, by decide, fun rid dur st => rfl⟩

/-- C8: whenever the driver version does not satisfy the supported range
(lower-inclusive 3.3, upper-exclusive 6.0), an enabled installation
registers no listeners, wraps no methods, emits the version diagnostic,
and returns the original module. -/
theorem claim8_version_gate (shape : ModuleShape) (v : SemVer)
    (h : satisfiesSupportedRange v = false) :
    installMongodb shape v true =
      { returnedOriginalModule := true
        registeredListeners := []
        wrappedMethods := []
        logs := [LogEvent.debugVersionNotInstrumented] } := by
  simp [installMongodb, h]

/-- C8 witness: version `2.9.0` is outside the range and installation on
a full-surface module is a diagnosed pass-through. -/
theorem claim8_witness :
    parseSemVer "2.9.0" = some { major := 2, minor := 9, patch := 0 } ∧
      satisfiesSupportedRange { major := 2, minor := 9, patch := 0 } = false ∧
      installMongodb { hasInstrument := true, hasMongoClient := true }
          { major := 2, minor := 9, patch := 0 } true =
        { returnedOriginalModule := true
          registeredListeners := []
          wrappedMethods := []
          logs := [LogEvent.debugVersionNotInstrumented] } :=
  ⟨by decide, by decide,
    claim8_version_gate { hasInstrument := true, hasMongoClient := true }
      { major := 2, minor := 9, patch := 0 } (by decide)⟩

/-- C10: a disabled installation returns the original module at once:
no listeners, no wrapped methods, and no diagnostics, whatever the
version and module surface. -/
theorem claim10_disabled_passthrough (shape : ModuleShape) (v : SemVer) :
    installMongodb shape v false =
      { returnedOriginalModule := true
        registeredListeners := []
        wrappedMethods := []
        logs := [] } := rfl

/-- C10 witness: disabled installation on a concrete in-range setup. -/
theorem claim10_witness :
    installMongodb { hasInstrument := true, hasMongoClient := true }
        { major := 4, minor := 2, patch := 0 } false =
      { returnedOriginalModule := true
        registeredListeners := []
        wrappedMethods := []
        logs := [] } :=
  claim10_disabled_passthrough
    { hasInstrument := true, hasMongoClient := true }
    { major := 4, minor := 2, patch := 0 }

end MongoInstr
